import Mathlib

/-
Verification of the solana-swap browser client: amount conversion,
pool pricing/slippage helpers, the snapshot history chain, and the
swap/deposit orchestration flows.

Modelling conventions (shallow embedding):
* decimal.js `Decimal` values are modelled as exact rationals (ℚ).
  Decimal values are arbitrary-precision decimal fractions; the default
  configuration (precision 20 significant digits, ROUND_HALF_UP) makes
  every operation used below exact on the ranges the app handles, so
  division is modelled exactly.  `Decimal.round` and `toDecimalPlaces`
  use ROUND_HALF_UP, i.e. round half away from zero.
* `PublicKey` values are modelled as their base58 strings, so that
  `toBase58` and the `PublicKey` constructor are mutually inverse, as
  they are for the real 32-byte keys.
* Asynchronous chain collaborators (RPC lookups, program-derived
  addresses, account creation, transaction submission) are modelled as
  explicit environment records and response values passed as inputs;
  the chain calls a flow performs are recorded in an action trace.
* Pool.ts and OnChainEntity.ts are not among the provided sources (only
  their callers are); the definitions taken from them carry a doc
  comment starting with "Modelled from the spec".
-/

/-- On-chain public keys, modelled by their base58 representation. -/
abbrev PublicKey := String

/-- PublicKey.toBase58 is the identity in this model. -/
def PublicKey.toBase58 (k : PublicKey) : String := k

/-- PublicKey equality (web3 PublicKey.equals). -/
def PublicKey.equals (a b : PublicKey) : Bool := a == b

/-- Round a rational to the nearest integer, ties away from zero
(decimal.js ROUND_HALF_UP, the default rounding of `Decimal.round`). -/
def roundHalfUp (q : ℚ) : ℤ :=
  if 0 ≤ q then ⌊q + 1 / 2⌋ else -⌊-q + 1 / 2⌋

/-- Decimal.toDecimalPlaces d: round to d decimal places, half away
from zero. -/
def toDecimalPlaces (q : ℚ) (d : ℕ) : ℚ :=
  (roundHalfUp (q * 10 ^ d) : ℚ) / 10 ^ d

/-- Token: an on-chain mint (src/api/token/Token.ts). -/
structure Token where
  address : PublicKey
  decimals : ℕ
  supply : ℚ
  mintAuthority : Option PublicKey
  name : Option String
  symbol : Option String
  deriving DecidableEq

/-- Token.equals: equality by address (Token.ts). -/
def Token.equals (t other : Token) : Bool :=
  t.address.equals other.address

/-- Plain-data form of a Token (Token.ts SerializableToken). -/
structure SerializableToken where
  address : String
  decimals : ℕ
  supply : ℚ
  mintAuthority : Option String
  name : Option String
  symbol : Option String
  deriving DecidableEq

/-- Token.serialize (Token.ts). -/
def Token.serialize (t : Token) : SerializableToken :=
  { address := t.address.toBase58
    decimals := t.decimals
    supply := t.supply
    mintAuthority := t.mintAuthority.map PublicKey.toBase58
    name := t.name
    symbol := t.symbol }

/-- Token.from (Token.ts): rebuild a Token from its plain-data form. -/
def Token.fromSerializable (s : SerializableToken) : Token :=
  { address := s.address
    decimals := s.decimals
    supply := s.supply
    mintAuthority := s.mintAuthority
    name := s.name
    symbol := s.symbol }

/-- minorAmountToMajor (src/utils/amount.ts): divide by 10^decimals and
round to `decimals` places. -/
def minorAmountToMajor (minorAmount : ℚ) (token : Token) : ℚ :=
  toDecimalPlaces (minorAmount / 10 ^ token.decimals) token.decimals

/-- majorAmountToMinor (src/utils/amount.ts): multiply by 10^decimals
and round to the nearest integer. -/
def majorAmountToMinor (majorAmount : ℚ) (token : Token) : ℚ :=
  (roundHalfUp (majorAmount * 10 ^ token.decimals) : ℚ)

/-- TokenAccount (src/api/token/TokenAccount.ts): a snapshot of an
on-chain token account; `previous` is the backward history chain
inherited from OnChainEntity. -/
inductive TokenAccount where
  | mk (mint : Token) (address : PublicKey) (balance : ℚ)
      (lastUpdatedSlot : Option ℕ) (previous : Option TokenAccount)

/-- Field accessor for the account mint. -/
def TokenAccount.mint : TokenAccount → Token
  | .mk m _ _ _ _ => m

/-- Field accessor for the account address. -/
def TokenAccount.address : TokenAccount → PublicKey
  | .mk _ a _ _ _ => a

/-- Field accessor for the account balance (minor denomination). -/
def TokenAccount.balance : TokenAccount → ℚ
  | .mk _ _ b _ _ => b

/-- Field accessor for the last-updated slot. -/
def TokenAccount.lastUpdatedSlot : TokenAccount → Option ℕ
  | .mk _ _ _ s _ => s

/-- Field accessor for the previous snapshot. -/
def TokenAccount.previous : TokenAccount → Option TokenAccount
  | .mk _ _ _ _ p => p

/-- Modelled from the spec: OnChainEntity.ts is not among the provided
sources. setPrevious attaches a prior snapshot; modelled as replacing
the previous field (in-place mutation becomes returning the updated
value). -/
def TokenAccount.setPrevious : TokenAccount → TokenAccount → TokenAccount
  | .mk m a b s _, p => .mk m a b s (some p)

/-- Modelled from the spec: OnChainEntity.ts is not among the provided
sources. getPrevious returns the prior snapshot, if any. -/
def TokenAccount.getPrevious (ta : TokenAccount) : Option TokenAccount :=
  ta.previous

/-- TokenAccount.sameToken (TokenAccount.ts): mints are equal. -/
def TokenAccount.sameToken (ta other : TokenAccount) : Bool :=
  ta.mint.equals other.mint

/-- TokenAccount.proportionOfTotalSupply (TokenAccount.ts): guard for
zero supply, then balance·10^5 / supply scaled back down by 10^5.  The
Decimal arithmetic and the final number conversions are modelled
exactly; the double conversion of `toNumber` only perturbs the value
beyond the 16th significant digit, far below the 5-decimal granularity
discussed in the claim. -/
def TokenAccount.proportionOfTotalSupply (ta : TokenAccount) : ℚ :=
  if ta.mint.supply = 0 then 0
  else
    let precision : ℕ := 5
    let scaling : ℚ := (10 : ℚ) ^ precision
    ta.balance * scaling / ta.mint.supply / scaling

/-- Stated from the claim wording, for comparison with the source
definition above: balance divided by total supply, rounded to 5 decimal
places, 0 when the supply is zero. -/
def proportionOfTotalSupplyClaimed (ta : TokenAccount) : ℚ :=
  if ta.mint.supply = 0 then 0
  else toDecimalPlaces (ta.balance / ta.mint.supply) 5

/-- Plain-data form of a TokenAccount (TokenAccount.ts
SerializableTokenAccount); the previous chain is serialized
recursively. -/
inductive SerializableTokenAccount where
  | mk (mint : SerializableToken) (address : String) (balance : ℚ)
      (lastUpdatedSlot : Option ℕ) (previous : Option SerializableTokenAccount)

/-- TokenAccount.serialize (TokenAccount.ts): plain-data round-trip
form, recursing over the previous chain. -/
def TokenAccount.serialize : TokenAccount → SerializableTokenAccount
  | .mk m a b s none => .mk m.serialize a.toBase58 b s none
  | .mk m a b s (some q) => .mk m.serialize a.toBase58 b s (some q.serialize)

/-- TokenAccount.from (TokenAccount.ts): rebuild a TokenAccount from
its plain-data form, recursing over the previous chain. -/
def TokenAccount.fromSerializable : SerializableTokenAccount → TokenAccount
  | .mk m a b s none => .mk (Token.fromSerializable m) a b s none
  | .mk m a b s (some q) =>
      .mk (Token.fromSerializable m) a b s (some (TokenAccount.fromSerializable q))

/-- A sample token with 2 decimals, used for concrete evaluations. -/
def sampleToken : Token :=
  { address := "mintA"
    decimals := 2
    supply := 1000
    mintAuthority := none
    name := some "TokenA"
    symbol := some "TA" }

/-- A mint with total supply 3, for evaluating proportionOfTotalSupply
at a quotient that does not terminate within 5 decimal places. -/
def supplyThreeToken : Token :=
  { address := "mint3"
    decimals := 2
    supply := 3
    mintAuthority := none
    name := none
    symbol := none }

/-- An account holding 1 minor unit of the supply-3 mint. -/
def acctOneOfThree : TokenAccount :=
  .mk supplyThreeToken "acct13" 1 none none

/-- A mint whose total supply is zero. -/
def zeroSupplyToken : Token :=
  { address := "mint0"
    decimals := 2
    supply := 0
    mintAuthority := none
    name := none
    symbol := none }

/-- An account of the zero-supply mint. -/
def acctZeroSupply : TokenAccount :=
  .mk zeroSupplyToken "acct0" 1 none none

/-- Modelled from the spec: Pool.ts is not among the provided sources.
Pool snapshot fields follow §3 of the spec and the constructor call in
getPool (pool API): address, reserve accounts tokenA/tokenB, the pool
token mint, fee account, swap program id, authority nonce, fee ratio,
last-updated slot, and the previous history snapshot inherited from
OnChainEntity. -/
inductive Pool where
  | mk (address : PublicKey) (tokenA tokenB : TokenAccount)
      (poolToken : Token) (feeAccount : TokenAccount)
      (programId : PublicKey) (nonce : ℕ) (feeRatio : ℚ)
      (lastUpdatedSlot : Option ℕ) (previous : Option Pool)

/-- Field accessor for the pool address. -/
def Pool.address : Pool → PublicKey
  | .mk a _ _ _ _ _ _ _ _ _ => a

/-- Field accessor for the token A reserve account. -/
def Pool.tokenA : Pool → TokenAccount
  | .mk _ ta _ _ _ _ _ _ _ _ => ta

/-- Field accessor for the token B reserve account. -/
def Pool.tokenB : Pool → TokenAccount
  | .mk _ _ tb _ _ _ _ _ _ _ => tb

/-- Field accessor for the pool (liquidity-provider) token mint. -/
def Pool.poolToken : Pool → Token
  | .mk _ _ _ pt _ _ _ _ _ _ => pt

/-- Field accessor for the fee account. -/
def Pool.feeAccount : Pool → TokenAccount
  | .mk _ _ _ _ fa _ _ _ _ _ => fa

/-- Field accessor for the previous pool snapshot. -/
def Pool.previous : Pool → Option Pool
  | .mk _ _ _ _ _ _ _ _ _ p => p

/-- Replace the previous field, keeping all other fields. -/
def Pool.withPrevious : Pool → Option Pool → Pool
  | .mk a ta tb pt fa pid n fr s _, p => .mk a ta tb pt fa pid n fr s p

/-- Modelled from the spec: OnChainEntity.getPrevious for pools. -/
def Pool.getPrevious (p : Pool) : Option Pool :=
  p.previous

/-- Modelled from the spec: OnChainEntity.setPrevious for pools;
attaches a prior snapshot. -/
def Pool.setPrevious (p : Pool) (prev : Pool) : Pool :=
  p.withPrevious (some prev)

/-- Modelled from the spec: clone produces a structurally-equal
independent copy; in value semantics a copy is the same value. -/
def Pool.clone (p : Pool) : Pool := p

/-- Modelled from the spec: addToHistory mutates the entity in place,
first transplanting the entity's existing previous onto the new
snapshot, then setting the entity's previous to the new snapshot. -/
def Pool.addToHistory (e : Pool) (snapshot : Pool) : Pool :=
  e.withPrevious (some (snapshot.withPrevious e.previous))

/-- Slippage adjustment direction. -/
inductive Direction where
  | up
  | down

/-- Modelled from the spec: adjustForSlippage widens ("up") or narrows
("down") an amount by the slippage percentage. -/
def adjustForSlippage (amount : ℚ) (direction : Direction)
    (slippagePercent : ℚ) : ℚ :=
  match direction with
  | .up => amount * (1 + slippagePercent / 100)
  | .down => amount * (1 - slippagePercent / 100)

/-- Modelled from the spec: the documented fixed default slippage
percentage (5%). -/
def DEFAULT_SLIPPAGE : ℚ := 5

/-- Modelled from the spec: calculateAmountInOtherToken applies the
pool price ratio (reserveOut / reserveIn, or its inverse if the
opposite side was specified) to the amount; when bidirectional, the
input side is chosen by the given mint. -/
def Pool.calculateAmountInOtherToken (pool : Pool) (mint : Token)
    (amount : ℚ) (bidirectional : Bool) : ℚ :=
  let isReverse := bidirectional && pool.tokenB.mint.equals mint
  if isReverse then amount * (pool.tokenA.balance / pool.tokenB.balance)
  else amount * (pool.tokenB.balance / pool.tokenA.balance)

/-- Modelled from the spec: the pool-token value of a token A amount is
amount / reserveA * poolTokenSupply. -/
def Pool.getPoolTokenValueOfTokenAAmount (pool : Pool) (amount : ℚ) : ℚ :=
  amount / pool.tokenA.balance * pool.poolToken.supply

/-- Result of calculateAmountsWithSlippage. -/
structure PoolAmounts where
  poolTokenAmount : ℚ
  tokenAAmount : ℚ
  tokenBAmount : ℚ
  deriving DecidableEq

/-- Modelled from the spec: calculateAmountsWithSlippage computes the
tokenA/tokenB amounts proportional to current reserves for the given
pool-token amount, then widens ("up") or narrows ("down") each by the
slippage; a missing slippage falls back to the default. -/
def Pool.calculateAmountsWithSlippage (pool : Pool) (poolTokenAmount : ℚ)
    (direction : Direction) (slippage : Option ℚ) : PoolAmounts :=
  let s := slippage.getD DEFAULT_SLIPPAGE
  let share := poolTokenAmount / pool.poolToken.supply
  { poolTokenAmount := poolTokenAmount
    tokenAAmount := adjustForSlippage (share * pool.tokenA.balance) direction s
    tokenBAmount := adjustForSlippage (share * pool.tokenB.balance) direction s }

/-- updatePool (pool API, in the src/utils/amount.ts concatenation):
fetches the pool again (the fetched result is passed as input here),
sets the new snapshot's previous to the original's previous (or the
original itself), adds a clone of the new snapshot to the original's
history, and returns the new snapshot. The in-place mutation of the
original is modelled by returning the pair
(returned snapshot, original after mutation). -/
def updatePool (pool : Pool) (fetched : Pool) : Pool × Pool :=
  let previous := pool.getPrevious.getD pool
  let updatedPool := fetched.setPrevious previous
  let mutated := pool.addToHistory updatedPool.clone
  (updatedPool, mutated)

/-- updateTokenAccountInfo (src/api/token/index.ts): fetches the token
account again (result passed as input; none when the address no longer
parses as a token account), sets the NEW snapshot's previous to the
original tracked account, and returns the new snapshot; the original is
left untouched. Modelled as the pair
(returned value, original after the call). -/
def updateTokenAccountInfo (tokenAccount : TokenAccount)
    (fetched : Option TokenAccount) : Option TokenAccount × TokenAccount :=
  match fetched with
  | none => (none, tokenAccount)
  | some u => (some (u.setPrevious tokenAccount), tokenAccount)

/-- Iterate addToHistory over a list of snapshots, first element
inserted first. -/
def insertAll (e : Pool) (snapshots : List Pool) : Pool :=
  snapshots.foldl Pool.addToHistory e

/-- Walk the previous chain k times from an entity. -/
def walkPrev : ℕ → Pool → Option Pool
  | 0, p => some p
  | k + 1, p => p.previous.bind (walkPrev k)

/-- The chain produced by successive history insertions: the last
inserted snapshot on top, down to the given original previous chain. -/
def linkChain (snapshots : List Pool) (bottom : Option Pool) : Option Pool :=
  snapshots.foldl (fun acc s => some (s.withPrevious acc)) bottom

/-- A second sample mint, for pools over two distinct tokens. -/
def sampleTokenB : Token :=
  { address := "mintB"
    decimals := 2
    supply := 500
    mintAuthority := none
    name := some "TokenB"
    symbol := some "TB" }

/-- The pool (liquidity-provider) token mint of the sample pool. -/
def samplePoolMint : Token :=
  { address := "mintLP"
    decimals := 2
    supply := 100
    mintAuthority := none
    name := none
    symbol := none }

/-- Reserve account for token A of the sample pool. -/
def sampleReserveA : TokenAccount :=
  .mk sampleToken "reserveA" 1000 none none

/-- Reserve account for token B of the sample pool. -/
def sampleReserveB : TokenAccount :=
  .mk sampleTokenB "reserveB" 2000 none none

/-- Fee account of the sample pool. -/
def sampleFeeAccount : TokenAccount :=
  .mk samplePoolMint "feeAcct" 0 none none

/-- A concrete pool over the two sample mints. -/
def samplePool : Pool :=
  .mk "pool1" sampleReserveA sampleReserveB samplePoolMint
    sampleFeeAccount "swapProg" 255 (1 / 400) none none

/-- A later snapshot of the sample pool, with a different address so
that states are distinguishable. -/
def snapPool : Pool :=
  .mk "pool2" sampleReserveA sampleReserveB samplePoolMint
    sampleFeeAccount "swapProg" 255 (1 / 400) (some 7) none

/-- A tracked token account before an update. -/
def origAccount : TokenAccount :=
  .mk sampleToken "acctX" 5 none none

/-- The freshly fetched snapshot of the same token account. -/
def freshAccount : TokenAccount :=
  .mk sampleToken "acctX" 7 (some 10) none

/-- The argument record of TokenSwap.swapInstruction, as built by
createSwapTransactionInstruction (pool API). -/
structure SwapInstructionData where
  poolAddress : PublicKey
  authority : PublicKey
  source : PublicKey
  poolInto : PublicKey
  poolFrom : PublicKey
  destination : PublicKey
  poolTokenMint : PublicKey
  feeAccount : PublicKey
  identityAccount : PublicKey
  amountIn : ℚ
  minimumAmountOut : ℚ

/-- The argument record of TokenSwap.depositInstruction, as built by
deposit (pool API). -/
structure DepositInstructionData where
  poolAddress : PublicKey
  authority : PublicKey
  sourceA : PublicKey
  sourceB : PublicKey
  intoA : PublicKey
  intoB : PublicKey
  poolTokenMint : PublicKey
  poolTokenAccount : PublicKey
  poolTokenAmount : ℚ
  maximumTokenA : ℚ
  maximumTokenB : ℚ

/-- Instructions the flows place into a transaction. -/
inductive Instruction where
  | approve (source delegate : PublicKey) (amount : ℚ)
  | swapIx (data : SwapInstructionData)
  | depositIx (data : DepositInstructionData)

/-- Chain calls performed by a flow, in order. -/
inductive ChainAction where
  | createAccountForToken (mint : PublicKey)
  | sendTransaction (instructions : List Instruction)

/-- External chain collaborators used by the swap and deposit flows:
the program-derived swap authority, the account obtained when a new
token account is created, and the signature of a submitted
transaction. -/
structure ChainEnv where
  authority : Pool → PublicKey
  createdAccount : Token → TokenAccount
  signature : String

/-- SwapParameters (pool API): pool, source account, optional target
account, identity, source amount and optional slippage. -/
structure SwapParameters where
  pool : Pool
  fromAccount : TokenAccount
  toAccount : Option TokenAccount
  identityAccount : PublicKey
  fromAmount : ℚ
  slippage : Option ℚ

/-- Required SwapParameters: every optional field resolved, as expected
by createSwapTransactionInstruction. -/
structure RequiredSwapParameters where
  pool : Pool
  fromAccount : TokenAccount
  toAccount : TokenAccount
  identityAccount : PublicKey
  fromAmount : ℚ
  slippage : ℚ

/-- isReverseSwap (pool API): the source account holds pool token B. -/
def isReverseSwap (pool : Pool) (fromAccount : TokenAccount) : Bool :=
  pool.tokenB.sameToken fromAccount

/-- createSwapTransactionInstruction (pool API): pick the pool sides,
compute the minimum to-amount from the pool price and adjust it down by
the slippage in the parameters, then assemble the swap instruction. -/
def createSwapTransactionInstruction (env : ChainEnv)
    (parameters : RequiredSwapParameters) : SwapInstructionData :=
  let isReverse := isReverseSwap parameters.pool parameters.fromAccount
  let poolIntoAccount :=
    if isReverse then parameters.pool.tokenB else parameters.pool.tokenA
  let poolFromAccount :=
    if isReverse then parameters.pool.tokenA else parameters.pool.tokenB
  let minimumToAmountWithoutSlippage :=
    parameters.pool.calculateAmountInOtherToken parameters.fromAccount.mint
      parameters.fromAmount true
  let minimumToAmountWithSlippage :=
    adjustForSlippage minimumToAmountWithoutSlippage Direction.down
      parameters.slippage
  { poolAddress := parameters.pool.address
    authority := env.authority parameters.pool
    source := parameters.fromAccount.address
    poolInto := poolIntoAccount.address
    poolFrom := poolFromAccount.address
    destination := parameters.toAccount.address
    poolTokenMint := parameters.pool.poolToken.address
    feeAccount := parameters.pool.feeAccount.address
    identityAccount := parameters.identityAccount
    amountIn := parameters.fromAmount
    minimumAmountOut := minimumToAmountWithSlippage }

/-- validateSwapParameters (pool API), condition part: the from account
must hold one of the two pool tokens and, if present, the to account
must hold the other. -/
def validSwapAccounts (parameters : SwapParameters) : Bool :=
  let isSwapBetween := fun (tokenAccount1 tokenAccount2 : TokenAccount) =>
    parameters.fromAccount.sameToken tokenAccount1 &&
      (parameters.toAccount.all fun t => t.sameToken tokenAccount2)
  isSwapBetween parameters.pool.tokenA parameters.pool.tokenB ||
    isSwapBetween parameters.pool.tokenB parameters.pool.tokenA

/-- The assertion message of validateSwapParameters (abbreviated). -/
def invalidAccountsMessage : String :=
  "Invalid accounts for fromAccount or toAccount"

/-- validateSwapParameters (pool API): assert the account condition,
raising a validation error when it fails. -/
def validateSwapParameters (parameters : SwapParameters) :
    Except String Unit :=
  if validSwapAccounts parameters then .ok () else .error invalidAccountsMessage

/-- swap (pool API): validate first; resolve the to account (creating
one on chain when missing); approve the from amount for the swap
authority; build the swap instruction with slippage overridden to
DEFAULT_SLIPPAGE; submit the transaction. Returns the chain actions
performed, paired with the result. -/
def swap (env : ChainEnv) (parameters : SwapParameters) :
    List ChainAction × Except String String :=
  match validateSwapParameters parameters with
  | .error e => ([], .error e)
  | .ok _ =>
    let isReverse := parameters.fromAccount.sameToken parameters.pool.tokenB
    let toToken :=
      if isReverse then parameters.pool.tokenA.mint else parameters.pool.tokenB.mint
    let creationActions := match parameters.toAccount with
      | some _ => []
      | none => [ChainAction.createAccountForToken toToken.address]
    let toAccount := parameters.toAccount.getD (env.createdAccount toToken)
    let delegate := env.authority parameters.pool
    let approveInstruction :=
      Instruction.approve parameters.fromAccount.address delegate
        parameters.fromAmount
    let swapInstruction := createSwapTransactionInstruction env
      { pool := parameters.pool
        fromAccount := parameters.fromAccount
        toAccount := toAccount
        identityAccount := parameters.identityAccount
        fromAmount := parameters.fromAmount
        slippage := DEFAULT_SLIPPAGE }
    (creationActions ++
        [ChainAction.sendTransaction
          [approveInstruction, Instruction.swapIx swapInstruction]],
      .ok env.signature)

/-- All instructions submitted in the recorded chain actions. -/
def sentInstructions (actions : List ChainAction) : List Instruction :=
  actions.foldr
    (fun a acc => match a with
      | .sendTransaction ixs => ixs ++ acc
      | _ => acc) []

/-- The minimum to-amounts of all submitted swap instructions. -/
def sentSwapMinimums (actions : List ChainAction) : List ℚ :=
  (sentInstructions actions).filterMap fun ix => match ix with
    | .swapIx d => some d.minimumAmountOut
    | _ => none

/-- DepositParameters (pool API). -/
structure DepositParameters where
  pool : Pool
  fromAAccount : TokenAccount
  fromBAccount : TokenAccount
  fromAAmount : ℚ
  poolTokenAccount : Option TokenAccount
  slippage : Option ℚ

/-- deposit (pool API): assert the three account checks; compute the
pool-token value of the requested token A amount; widen the
proportional amounts upward by the slippage; cap each by the source
account balance; resolve the pool token account (creating one on chain
when missing); approve both capped amounts and submit the deposit
instruction carrying them as maximums. -/
def deposit (env : ChainEnv) (parameters : DepositParameters) :
    List ChainAction × Except String String :=
  let pool := parameters.pool
  if !(parameters.fromAAccount.sameToken pool.tokenA) then
    ([], .error "Invalid account for from token A")
  else if !(parameters.fromBAccount.sameToken pool.tokenB) then
    ([], .error "Invalid account for from token B")
  else if !(parameters.poolTokenAccount.all fun a => a.mint.equals pool.poolToken) then
    ([], .error "Invalid pool token account")
  else
    let authority := env.authority pool
    let maximumExpectedTokenAAmountWithoutSlippage := parameters.fromAAmount
    let poolTokenAmount := pool.getPoolTokenValueOfTokenAAmount
      maximumExpectedTokenAAmountWithoutSlippage
    let maximumAmounts := pool.calculateAmountsWithSlippage poolTokenAmount
      Direction.up parameters.slippage
    let maxTokenAAmount :=
      min maximumAmounts.tokenAAmount parameters.fromAAccount.balance
    let maxTokenBAmount :=
      min maximumAmounts.tokenBAmount parameters.fromBAccount.balance
    let creationActions := match parameters.poolTokenAccount with
      | some _ => []
      | none => [ChainAction.createAccountForToken pool.poolToken.address]
    let poolTokenAccount :=
      parameters.poolTokenAccount.getD (env.createdAccount pool.poolToken)
    let fromAApproveInstruction :=
      Instruction.approve parameters.fromAAccount.address authority maxTokenAAmount
    let fromBApproveInstruction :=
      Instruction.approve parameters.fromBAccount.address authority maxTokenBAmount
    let depositInstruction : DepositInstructionData :=
      { poolAddress := pool.address
        authority := authority
        sourceA := parameters.fromAAccount.address
        sourceB := parameters.fromBAccount.address
        intoA := pool.tokenA.address
        intoB := pool.tokenB.address
        poolTokenMint := pool.poolToken.address
        poolTokenAccount := poolTokenAccount.address
        poolTokenAmount := maximumAmounts.poolTokenAmount
        maximumTokenA := maxTokenAAmount
        maximumTokenB := maxTokenBAmount }
    (creationActions ++
        [ChainAction.sendTransaction
          [fromAApproveInstruction, fromBApproveInstruction,
            Instruction.depositIx depositInstruction]],
      .ok env.signature)

/-- The (maximumTokenA, maximumTokenB) pairs of all submitted deposit
instructions. -/
def sentDepositMaximums (actions : List ChainAction) : List (ℚ × ℚ) :=
  (sentInstructions actions).filterMap fun ix => match ix with
    | .depositIx d => some (d.maximumTokenA, d.maximumTokenB)
    | _ => none

/-- The amounts of all submitted approve instructions. -/
def sentApproveAmounts (actions : List ChainAction) : List ℚ :=
  (sentInstructions actions).filterMap fun ix => match ix with
    | .approve _ _ amount => some amount
    | _ => none

/-- The conjunction of the three deposit assertions. -/
def depositChecks (parameters : DepositParameters) : Bool :=
  parameters.fromAAccount.sameToken parameters.pool.tokenA &&
    (parameters.fromBAccount.sameToken parameters.pool.tokenB &&
      (parameters.poolTokenAccount.all fun a =>
        a.mint.equals parameters.pool.poolToken))

/-- The capped token A maximum computed by deposit. -/
def depositMaxTokenA (parameters : DepositParameters) : ℚ :=
  min ((parameters.pool.calculateAmountsWithSlippage
      (parameters.pool.getPoolTokenValueOfTokenAAmount parameters.fromAAmount)
      Direction.up parameters.slippage).tokenAAmount)
    parameters.fromAAccount.balance

/-- The capped token B maximum computed by deposit. -/
def depositMaxTokenB (parameters : DepositParameters) : ℚ :=
  min ((parameters.pool.calculateAmountsWithSlippage
      (parameters.pool.getPoolTokenValueOfTokenAAmount parameters.fromAAmount)
      Direction.up parameters.slippage).tokenBAmount)
    parameters.fromBAccount.balance

/-- The parsed token-account payload of a getParsedAccountInfo result
(path "data.parsed.info"). -/
structure ParsedTokenAccountInfo where
  mint : PublicKey
  tokenAmount : ℚ

/-- The data attached to an on-chain account: the raw buffer of an
account the RPC node could not parse as a token account, or parsed
program data with an optional info payload. -/
inductive AccountData where
  | raw (buffer : List ℕ)
  | parsed (program : String) (info : Option ParsedTokenAccountInfo)

/-- The account info of a getParsedAccountInfo response value. -/
structure AccountInfoValue where
  data : AccountData

/-- A getParsedAccountInfo response: context slot plus optional account
info (none when the account does not exist). -/
structure GetParsedAccountInfoResponse where
  contextSlot : ℕ
  value : Option AccountInfoValue

/-- extractParsedTokenAccountInfo (src/api/token/index.ts): ramda path
["data", "parsed", "info"], defined only when the account data was
parsed and carries an info payload. -/
def extractParsedTokenAccountInfo (r : Option AccountInfoValue) :
    Option ParsedTokenAccountInfo :=
  match r with
  | some ⟨AccountData.parsed _ (some info)⟩ => some info
  | _ => none

/-- External collaborator of the token API: the mint lookup, which can
fail with an RPC error. -/
structure TokenEnv where
  tokenInfo : PublicKey → Except String Token

/-- tokenAccountInfo (src/api/token/index.ts): extract the parsed token
account info from the RPC response (passed as input); when the account
does not parse as a token account, return none; otherwise look up the
mint and build the TokenAccount snapshot with the response slot. -/
def tokenAccountInfo (env : TokenEnv) (account : PublicKey)
    (response : GetParsedAccountInfoResponse) :
    Except String (Option TokenAccount) :=
  match extractParsedTokenAccountInfo response.value with
  | none => .ok none
  | some parsedInfo =>
    match env.tokenInfo parsedInfo.mint with
    | .error e => .error e
    | .ok mintTokenInfo =>
      .ok (some (.mk mintTokenInfo account parsedInfo.tokenAmount
        (some response.contextSlot) none))

/-- A token unrelated to the sample pool. -/
def wrongTokenC : Token :=
  { address := "mintC"
    decimals := 0
    supply := 10
    mintAuthority := none
    name := none
    symbol := none }

/-- Another token unrelated to the sample pool. -/
def wrongTokenD : Token :=
  { address := "mintD"
    decimals := 0
    supply := 10
    mintAuthority := none
    name := none
    symbol := none }

/-- A source account holding neither of the sample pool tokens. -/
def wrongFromAccount : TokenAccount :=
  .mk wrongTokenC "wrongFrom" 10 none none

/-- A target account holding neither of the sample pool tokens. -/
def wrongToAccount : TokenAccount :=
  .mk wrongTokenD "wrongTo" 0 none none

/-- A concrete chain environment for witnesses. -/
def sampleEnv : ChainEnv :=
  { authority := fun _ => "authorityKey"
    createdAccount := fun t => .mk t "createdAcct" 0 none none
    signature := "txSignature" }

/-- Swap parameters whose account pair matches neither pool side. -/
def invalidSwapParams : SwapParameters :=
  { pool := samplePool
    fromAccount := wrongFromAccount
    toAccount := some wrongToAccount
    identityAccount := "identityAcct"
    fromAmount := 10
    slippage := none }

/-- A concrete token environment for witnesses. -/
def sampleTokenEnv : TokenEnv :=
  { tokenInfo := fun _ => .ok sampleToken }

/-- Account info whose data is a raw buffer (exists, does not parse). -/
def rawAccountInfo : AccountInfoValue :=
  { data := .raw [0, 1, 2] }

/-- A response for an existing account that is not a token account. -/
def rawResponse : GetParsedAccountInfoResponse :=
  { contextSlot := 42
    value := some rawAccountInfo }

-- Theorems

theorem roundHalfUp_intCast (n : ℤ) : roundHalfUp (n : ℚ) = n := by
  unfold roundHalfUp
  by_cases h : (0 : ℚ) ≤ (n : ℚ)
  · rw [if_pos h]
    have : ((n : ℚ) + 1 / 2) = 1 / 2 + (n : ℚ) := by ring
    rw [this, Int.floor_add_int]
    norm_num
  · rw [if_neg h]
    have : (-(n : ℚ) + 1 / 2) = 1 / 2 + ((-n : ℤ) : ℚ) := by push_cast; ring
    rw [this, Int.floor_add_int]
    norm_num

theorem pow_ten_ne_zero (d : ℕ) : ((10 : ℚ) ^ d) ≠ 0 := by
  positivity

theorem Token.fromSerializable_serialize (t : Token) :
    Token.fromSerializable t.serialize = t := by
  cases t with
  | mk a d s ma n sy =>
    cases ma <;>
      simp [Token.serialize, Token.fromSerializable, PublicKey.toBase58]

theorem tokenAccount_fromSerializable_serialize :
    ∀ (a : TokenAccount), TokenAccount.fromSerializable a.serialize = a
  | .mk m ad b s none => by
      simp [TokenAccount.serialize, TokenAccount.fromSerializable,
        Token.fromSerializable_serialize, PublicKey.toBase58]
  | .mk m ad b s (some q) => by
      have ih := tokenAccount_fromSerializable_serialize q
      simp [TokenAccount.serialize, TokenAccount.fromSerializable,
        Token.fromSerializable_serialize, PublicKey.toBase58, ih]

/-- C2, literal form refuted: the minor amount 0.01 (= 1/100) is
expressible exactly in 2 decimal places, yet the round trip through
minorAmountToMajor and majorAmountToMinor collapses it to 0. -/
theorem c2_roundtrip_counterexample :
    ((1 : ℚ) / 100) * 10 ^ sampleToken.decimals = (1 : ℚ) ∧
    majorAmountToMinor (minorAmountToMajor ((1 : ℚ) / 100) sampleToken)
        sampleToken ≠ (1 : ℚ) / 100 := by
  constructor
  · norm_num [sampleToken]
  · norm_num [minorAmountToMajor, majorAmountToMinor, toDecimalPlaces,
      roundHalfUp, sampleToken]

/-- C2 (amended): for every token and every amount x that is an integer
(i.e. genuinely expressed in the minor denomination), converting x from
minor to major and back is the identity. -/
theorem c2_roundtrip_integer (t : Token) (x : ℤ) :
    majorAmountToMinor (minorAmountToMajor (x : ℚ) t) t = (x : ℚ) := by
  unfold minorAmountToMajor majorAmountToMinor toDecimalPlaces
  rw [div_mul_cancel₀ _ (pow_ten_ne_zero t.decimals), roundHalfUp_intCast,
    div_mul_cancel₀ _ (pow_ten_ne_zero t.decimals), roundHalfUp_intCast]

/-- C6: the code contradicts its own doc comment (and the claim): for
an account holding 1 unit of a mint with supply 3,
proportionOfTotalSupply returns the full quotient 1/3 rather than
0.33333 (the quotient rounded to 5 decimal places); the zero-supply
guard does hold, returning exactly 0. -/
theorem c6_proportion_not_rounded :
    TokenAccount.proportionOfTotalSupply acctOneOfThree = 1 / 3 ∧
    proportionOfTotalSupplyClaimed acctOneOfThree = 33333 / 100000 ∧
    TokenAccount.proportionOfTotalSupply acctOneOfThree ≠
      proportionOfTotalSupplyClaimed acctOneOfThree ∧
    TokenAccount.proportionOfTotalSupply acctZeroSupply = 0 := by
  refine ⟨?_, ?_, ?_, ?_⟩
  · norm_num [TokenAccount.proportionOfTotalSupply, acctOneOfThree,
      supplyThreeToken, TokenAccount.mint, TokenAccount.balance]
  · norm_num [proportionOfTotalSupplyClaimed, acctOneOfThree,
      supplyThreeToken, TokenAccount.mint, TokenAccount.balance,
      toDecimalPlaces, roundHalfUp]
  · norm_num [TokenAccount.proportionOfTotalSupply,
      proportionOfTotalSupplyClaimed, acctOneOfThree, supplyThreeToken,
      TokenAccount.mint, TokenAccount.balance, toDecimalPlaces,
      roundHalfUp]
  · norm_num [TokenAccount.proportionOfTotalSupply, acctZeroSupply,
      zeroSupplyToken, TokenAccount.mint, TokenAccount.balance]

/-- C8: serializing a TokenAccount and rebuilding it with
TokenAccount.from reproduces the account structurally, including every
link of the previous history chain. -/
theorem c8_tokenAccount_serialize_roundtrip (a : TokenAccount) :
    TokenAccount.fromSerializable a.serialize = a :=
  tokenAccount_fromSerializable_serialize a

theorem Pool.withPrevious_withPrevious (p : Pool) (a b : Option Pool) :
    (p.withPrevious a).withPrevious b = p.withPrevious b := by
  cases p
  rfl

theorem Pool.previous_withPrevious (p : Pool) (a : Option Pool) :
    (p.withPrevious a).previous = a := by
  cases p
  rfl

theorem Pool.withPrevious_previous (p : Pool) :
    p.withPrevious p.previous = p := by
  cases p
  rfl

theorem linkChain_cons (s : Pool) (rest : List Pool) (b : Option Pool) :
    linkChain (s :: rest) b = linkChain rest (some (s.withPrevious b)) := rfl

theorem insertAll_eq (e : Pool) (ss : List Pool) :
    insertAll e ss = e.withPrevious (linkChain ss e.previous) := by
  induction ss generalizing e with
  | nil =>
    simp [insertAll, linkChain, Pool.withPrevious_previous]
  | cons s rest ih =>
    have h1 : insertAll e (s :: rest) = insertAll (e.addToHistory s) rest := rfl
    rw [h1, ih, Pool.addToHistory, Pool.withPrevious_withPrevious,
      Pool.previous_withPrevious, linkChain_cons]

theorem walkPrev_succ_right (k : ℕ) (p : Pool) :
    walkPrev (k + 1) p = (walkPrev k p).bind Pool.previous := by
  induction k generalizing p with
  | zero => simp [walkPrev]
  | succ n ih =>
    show p.previous.bind (walkPrev (n + 1)) =
      (p.previous.bind (walkPrev n)).bind Pool.previous
    cases hp : p.previous with
    | none => simp
    | some q => simp [ih q]

theorem walk_linkChain (rest : List Pool) (q : Pool) :
    (linkChain rest (some q)).bind (walkPrev rest.length) = some q := by
  induction rest generalizing q with
  | nil => simp [linkChain, walkPrev]
  | cons s rest ih =>
    rw [linkChain_cons]
    have hlift : ∀ (op : Option Pool) (k : ℕ),
        op.bind (walkPrev (k + 1)) = (op.bind (walkPrev k)).bind Pool.previous := by
      intro op k
      cases op <;> simp [walkPrev_succ_right]
    simp only [List.length_cons]
    rw [hlift, ih]
    simp [Pool.previous_withPrevious]

/-- C4, literal form refuted: after one addToHistory call, walking
previous once does not reach the original pre-chain state; it reaches
the inserted snapshot (carrying the original previous). -/
theorem c4_counterexample :
    walkPrev 1 (insertAll samplePool [snapPool]) ≠ some samplePool := by
  intro h
  have h2 := congrArg (Option.map Pool.address) h
  simp [insertAll, Pool.addToHistory, walkPrev, samplePool, snapPool,
    Pool.withPrevious, Pool.previous, Pool.address] at h2

/-- C4 (amended): each insertion transplants the entity's old previous
onto the inserted snapshot and makes that snapshot the entity's
previous; after k insertions the entity's own data is unchanged and
walking previous k times reaches the first inserted snapshot, whose
previous is the entity's original pre-chain previous (so the original
chain sits below the k inserted snapshots, reached after k+1 steps,
not k). -/
theorem c4_history_chain (e s : Pool) (rest : List Pool) :
    Pool.addToHistory e s = e.withPrevious (some (s.withPrevious e.previous)) ∧
    (insertAll e (s :: rest)).withPrevious none = e.withPrevious none ∧
    walkPrev (rest.length + 1) (insertAll e (s :: rest)) =
      some (s.withPrevious e.previous) := by
  refine ⟨rfl, ?_, ?_⟩
  · rw [insertAll_eq, Pool.withPrevious_withPrevious]
  · rw [insertAll_eq, linkChain_cons]
    show (e.withPrevious (linkChain rest (some (s.withPrevious e.previous)))).previous.bind
      (walkPrev rest.length) = some (s.withPrevious e.previous)
    rw [Pool.previous_withPrevious, walk_linkChain]

/-- C9, literal form refuted: for a negative amount the upward
adjustment is strictly below the amount, so the claimed inequality
"adjustForSlippage(amount, up, s) ≥ amount" fails for amount = -100,
s = 5. -/
theorem c9_counterexample :
    adjustForSlippage (-100) Direction.up 5 < -100 := by
  norm_num [adjustForSlippage]

/-- C9 (amended): the two slippage formulas hold for every amount, and
for nonnegative amounts and nonnegative slippage the adjusted values
bracket the amount: down-adjusted ≤ amount ≤ up-adjusted. -/
theorem c9_adjustForSlippage (amount s : ℚ) :
    adjustForSlippage amount Direction.up s = amount * (1 + s / 100) ∧
    adjustForSlippage amount Direction.down s = amount * (1 - s / 100) ∧
    (0 ≤ amount → 0 ≤ s →
      adjustForSlippage amount Direction.down s ≤ amount ∧
      amount ≤ adjustForSlippage amount Direction.up s) := by
  refine ⟨rfl, rfl, ?_⟩
  intro ha hs
  unfold adjustForSlippage
  constructor
  · nlinarith
  · nlinarith

/-- C9 witness: the amended theorem applied at amount 200, slippage 5. -/
theorem c9_adjustForSlippage_witness :
    adjustForSlippage 200 Direction.up 5 = 200 * (1 + 5 / 100) ∧
    adjustForSlippage 200 Direction.down 5 = 200 * (1 - 5 / 100) ∧
    adjustForSlippage 200 Direction.down 5 ≤ 200 ∧
    (200 : ℚ) ≤ adjustForSlippage 200 Direction.up 5 := by
  have h := c9_adjustForSlippage 200 5
  exact ⟨h.1, h.2.1, (h.2.2 (by norm_num) (by norm_num)).1,
    (h.2.2 (by norm_num) (by norm_num)).2⟩

/-- C1, literal form refuted: for a token account whose fetch succeeds,
updateTokenAccountInfo returns the new snapshot but never calls
addToHistory on the original: afterwards the original exposes nothing
via getPrevious. -/
theorem c1_counterexample :
    ((updateTokenAccountInfo origAccount (some freshAccount)).1).isSome = true ∧
    ¬ ∃ s, ((updateTokenAccountInfo origAccount (some freshAccount)).2).getPrevious
      = some s := by
  refine ⟨rfl, ?_⟩
  rintro ⟨s, hs⟩
  have hnone : ((updateTokenAccountInfo origAccount (some freshAccount)).2).getPrevious
      = none := rfl
  rw [hnone] at hs
  exact Option.noConfusion hs

/-- C1 (amended): updatePool returns the newly built snapshot (the
fetched state with its previous attached, not the mutated original),
mutates the original only in its previous field, and the original then
exposes a snapshot with the fetched state's data via getPrevious;
updateTokenAccountInfo instead returns the new snapshot with its
previous set to the original tracked account and leaves the original
untouched. -/
theorem c1_update_flows :
    (∀ (pool fetched : Pool),
      (updatePool pool fetched).1 =
          fetched.setPrevious (pool.getPrevious.getD pool) ∧
      (updatePool pool fetched).2.withPrevious none = pool.withPrevious none ∧
      ((updatePool pool fetched).2.getPrevious).map
          (fun q => q.withPrevious none) = some (fetched.withPrevious none)) ∧
    (∀ (ta : TokenAccount) (fetched : Option TokenAccount),
      (updateTokenAccountInfo ta fetched).1 =
          fetched.map (fun u => u.setPrevious ta) ∧
      (updateTokenAccountInfo ta fetched).2 = ta) := by
  constructor
  · intro pool fetched
    refine ⟨rfl, ?_, ?_⟩
    · show (pool.addToHistory _).withPrevious none = pool.withPrevious none
      rw [Pool.addToHistory, Pool.withPrevious_withPrevious]
    · show ((pool.addToHistory _).previous).map (fun q => q.withPrevious none)
        = some (fetched.withPrevious none)
      rw [Pool.addToHistory, Pool.previous_withPrevious]
      simp only [Option.map_some']
      rw [Pool.withPrevious_withPrevious, Pool.clone, Pool.setPrevious,
        Pool.withPrevious_withPrevious]
  · intro ta fetched
    cases fetched <;> exact ⟨rfl, rfl⟩

/-- C3: the caller-supplied slippage in SwapParameters is never used by
swap: changing it does not change the flow at all, and the swap
instruction submitted (when validation passes) carries a minimum
to-amount adjusted with the fixed DEFAULT_SLIPPAGE constant. -/
theorem c3_swap_overrides_slippage (env : ChainEnv)
    (parameters : SwapParameters) :
    (∀ s : Option ℚ,
      swap env { parameters with slippage := s } = swap env parameters) ∧
    sentSwapMinimums (swap env parameters).1 =
      (if validSwapAccounts parameters then
        [adjustForSlippage
          (parameters.pool.calculateAmountInOtherToken
            parameters.fromAccount.mint parameters.fromAmount true)
          Direction.down DEFAULT_SLIPPAGE]
      else []) := by
  constructor
  · intro s
    cases parameters
    rfl
  · by_cases h : validSwapAccounts parameters = true
    · rw [if_pos h]
      cases hto : parameters.toAccount <;>
        simp [swap, validateSwapParameters, h, hto, sentSwapMinimums,
          sentInstructions, createSwapTransactionInstruction]
    · rw [Bool.not_eq_true] at h
      rw [if_neg (by simp [h])]
      simp [swap, validateSwapParameters, h, sentSwapMinimums,
        sentInstructions]

/-- C5: when the from/to account pair matches neither
(pool.tokenA, pool.tokenB) nor (pool.tokenB, pool.tokenA) by mint, swap
fails with the validation error immediately: no chain action is
recorded and no instruction is built. -/
theorem c5_swap_validation (env : ChainEnv) (parameters : SwapParameters)
    (t : TokenAccount) (hto : parameters.toAccount = some t)
    (hAB : ¬(parameters.fromAccount.sameToken parameters.pool.tokenA = true ∧
      t.sameToken parameters.pool.tokenB = true))
    (hBA : ¬(parameters.fromAccount.sameToken parameters.pool.tokenB = true ∧
      t.sameToken parameters.pool.tokenA = true)) :
    swap env parameters = ([], .error invalidAccountsMessage) := by
  have hv : validSwapAccounts parameters = false := by
    unfold validSwapAccounts
    rw [hto]
    cases h1 : parameters.fromAccount.sameToken parameters.pool.tokenA <;>
    cases h2 : t.sameToken parameters.pool.tokenB <;>
    cases h3 : parameters.fromAccount.sameToken parameters.pool.tokenB <;>
    cases h4 : t.sameToken parameters.pool.tokenA <;>
      simp_all [Option.all]
  simp [swap, validateSwapParameters, hv]

/-- C5 witness: the validation theorem applied to a concrete account
pair holding neither of the sample pool's tokens. -/
theorem c5_swap_validation_witness :
    swap sampleEnv invalidSwapParams = ([], .error invalidAccountsMessage) :=
  c5_swap_validation sampleEnv invalidSwapParams wrongToAccount rfl
    (by decide) (by decide)

/-- C7: when the account exists on chain but its data does not parse as
a token account, tokenAccountInfo returns ok-none (no data), not an
error and not an exception. -/
theorem c7_token_account_no_data (env : TokenEnv) (account : PublicKey)
    (response : GetParsedAccountInfoResponse) (ai : AccountInfoValue)
    (_hexists : response.value = some ai)
    (hnoparse : extractParsedTokenAccountInfo response.value = none) :
    tokenAccountInfo env account response = .ok none := by
  unfold tokenAccountInfo
  rw [hnoparse]

/-- C7 witness: the theorem applied to an existing account whose data
is a raw (unparsed) buffer. -/
theorem c7_token_account_no_data_witness :
    tokenAccountInfo sampleTokenEnv "someAccount" rawResponse = .ok none :=
  c7_token_account_no_data sampleTokenEnv "someAccount" rawResponse
    rawAccountInfo rfl rfl

/-- C10: when the deposit checks pass, the deposit instruction's
maximum token amounts and both approve amounts equal the minimum of the
slippage-adjusted expected amount and the source account balance, and
therefore never exceed the respective balances. -/
theorem c10_deposit_caps (env : ChainEnv) (parameters : DepositParameters) :
    sentDepositMaximums (deposit env parameters).1 =
      (if depositChecks parameters then
        [(depositMaxTokenA parameters, depositMaxTokenB parameters)]
      else []) ∧
    sentApproveAmounts (deposit env parameters).1 =
      (if depositChecks parameters then
        [depositMaxTokenA parameters, depositMaxTokenB parameters]
      else []) ∧
    depositMaxTokenA parameters ≤ parameters.fromAAccount.balance ∧
    depositMaxTokenB parameters ≤ parameters.fromBAccount.balance := by
  refine ⟨?_, ?_, min_le_right _ _, min_le_right _ _⟩
  all_goals
    cases hpt : parameters.poolTokenAccount with
    | none =>
        cases h1 : parameters.fromAAccount.sameToken parameters.pool.tokenA <;>
        cases h2 : parameters.fromBAccount.sameToken parameters.pool.tokenB <;>
          simp [deposit, depositChecks, hpt, h1, h2, Option.all,
            sentDepositMaximums, sentApproveAmounts, sentInstructions,
            depositMaxTokenA, depositMaxTokenB]
    | some a =>
        cases h1 : parameters.fromAAccount.sameToken parameters.pool.tokenA <;>
        cases h2 : parameters.fromBAccount.sameToken parameters.pool.tokenB <;>
        cases h3 : a.mint.equals parameters.pool.poolToken <;>
          simp [deposit, depositChecks, hpt, h1, h2, h3, Option.all,
            sentDepositMaximums, sentApproveAmounts, sentInstructions,
            depositMaxTokenA, depositMaxTokenB]
